import Mathlib

/-!
Verification development for the robo-demo repository.

The repository's server (`src/server.js`) contains two generations of the
Express server for a simulated 6-DOF robot arm: the current one (v3.0,
"client-side execution", in which every task tool is delegated to the browser
through a pending-command slot polled by `executeViaCommandQueue`) and the
older v2.0 one (in which `executeTool` mutates the arm state directly).
`src/unnamed/part_000` is the implementation plan holding the analytical IK
solver `solveIK` and the task executor `executePickObject`.

This file shallowly embeds those parts:
* the IK layer over `ℝ` (JS `number` arithmetic modelled by exact reals;
  at arguments where JS `Math.acos` would produce `NaN` the embedding only
  relies on whether the function returns `null` or an array, never on the
  junk angle values),
* the state layer over `ℚ` (positions and joint angles are plain numbers,
  kept computable so concrete states can be decided),
* a step relation collecting every v3 mutator of the server state, giving a
  notion of reachable server state.
-/

namespace RoboDemo

/-! ## IK solver layer (src/unnamed/part_000, `solveIK`, lines 106-137) -/

/-- A Cartesian target, the `targetPos` argument of `solveIK`. -/
structure Point3 where
  x : ℝ
  y : ℝ
  z : ℝ

/-- JS `Math.atan2 y x` (total; returns 0 at the origin, as JS does). -/
noncomputable def atan2 (y x : ℝ) : ℝ :=
  if 0 < x then Real.arctan (y / x)
  else if x < 0 ∧ 0 ≤ y then Real.arctan (y / x) + Real.pi
  else if x < 0 ∧ y < 0 then Real.arctan (y / x) - Real.pi
  else if x = 0 ∧ 0 < y then Real.pi / 2
  else if x = 0 ∧ y < 0 then -(Real.pi / 2)
  else 0

/-- `const baseHeight = 0.15` inside `solveIK`. -/
def baseHeight : ℝ := 0.15

/-- `const L1 = 0.35` (shoulder to elbow). -/
def L1 : ℝ := 0.35

/-- `const L2 = 0.30` (elbow to wrist). -/
def L2 : ℝ := 0.30

/-- `const L3 = 0.35` (wrist to end effector). -/
def L3 : ℝ := 0.35

/-- `const r = Math.sqrt(targetPos.x**2 + targetPos.z**2)`. -/
noncomputable def reachR (p : Point3) : ℝ := Real.sqrt (p.x ^ 2 + p.z ^ 2)

/-- `const h = targetPos.y - baseHeight - L3`. -/
noncomputable def reachH (p : Point3) : ℝ := p.y - baseHeight - L3

/-- `const d = Math.sqrt(r**2 + h**2)`, the projected reach distance. -/
noncomputable def reachD (p : Point3) : ℝ := Real.sqrt (reachR p ^ 2 + reachH p ^ 2)

/-- The analytical IK solver of `src/unnamed/part_000` lines 106-137.  Returns
`none` exactly where the JS function returns `null`; otherwise the list of six
joint angles converted to degrees.  JS `Math.acos` yields `NaN` outside
`[-1, 1]` while `Real.arccos` clamps; no theorem below inspects an angle value
produced from an out-of-domain `acos` argument. -/
noncomputable def solveIK (p : Point3) : Option (List ℝ) :=
  if reachD p > L1 + L2 then none
  else
    let theta0 := atan2 p.x p.z
    let cosTheta2 := (reachD p ^ 2 - L1 ^ 2 - L2 ^ 2) / (2 * L1 * L2)
    let theta2 := -Real.arccos cosTheta2
    let alpha := atan2 (reachH p) (reachR p)
    let beta := Real.arccos ((L1 ^ 2 + reachD p ^ 2 - L2 ^ 2) / (2 * L1 * reachD p))
    let theta1 := alpha + beta - Real.pi / 2
    let theta4 := -(theta1 + theta2)
    let theta5 := -theta0
    some ([theta0, theta1, theta2, 0, theta4, theta5].map (fun rad => rad * 180 / Real.pi))

/-- Closed form of the projected reach distance, eliminating the inner root. -/
theorem reachD_eq (p : Point3) :
    reachD p = Real.sqrt (p.x ^ 2 + p.z ^ 2 + (p.y - baseHeight - L3) ^ 2) := by
  unfold reachD reachR reachH
  rw [Real.sq_sqrt (by positivity)]

/-! ## Server state layer (src/server.js, v3.0 section)

Numbers carried in JSON (positions, joint angles, tool arguments) are
modelled by `ℚ` so that concrete states are decidable. -/

/-- A 3D position as stored in `armState.objects[..].position`. -/
structure Vec3 where
  x : ℚ
  y : ℚ
  z : ℚ
  deriving DecidableEq

/-- One entry of `armState.objects`.  `type`, `size` and `color` are optional
in loaded state; `discover_objects` substitutes defaults for missing ones. -/
structure TrackedObject where
  id : String
  type : Option String
  position : Vec3
  size : Option ℚ
  color : Option String
  deriving DecidableEq

/-- The pending command written by `executeViaCommandQueue` (the fresh
`randomUUID()` is modelled by a natural-number tag). -/
structure Command where
  id : ℕ
  tool : String
  args : List (String × ℚ)
  deriving DecidableEq

/-- The body a browser posts to `/api/command-result`:
`{ commandId, ...result }`.  Only the fields the server consumes are kept
(`jointTargets`, `magnetOn`, `attachedObject` are synced into the state when
present; `success` is passed back to the MCP caller). -/
structure ResultReport where
  commandId : ℕ
  success : Bool
  jointTargets : Option (List ℚ)
  magnetOn : Option Bool
  attachedObject : Option (Option String)
  deriving DecidableEq

/-- The mutable server state `armState` (v3.0 `defaultState` shape). -/
structure ArmState where
  jointTargets : List ℚ
  magnetOn : Bool
  attachedObject : Option String
  objects : List TrackedObject
  pendingCommand : Option Command
  commandResult : Option ResultReport
  deriving DecidableEq

/-- First default object of v3 `defaultState`. -/
def cube1 : TrackedObject :=
  { id := "cube1", type := some "cube",
    position := { x := 0.4, y := 0.025, z := 0.3 },
    size := some 0.05, color := some "silver" }

/-- Second default object of v3 `defaultState`. -/
def cube2 : TrackedObject :=
  { id := "cube2", type := some "cube",
    position := { x := -0.3, y := 0.025, z := 0.4 },
    size := some 0.04, color := some "gray" }

/-- Third default object of v3 `defaultState`. -/
def cylinder1 : TrackedObject :=
  { id := "cylinder1", type := some "cylinder",
    position := { x := 0.25, y := 0.03, z := -0.35 },
    size := some 0.03, color := some "silver" }

/-- `defaultState` of the v3.0 server (src/server.js lines 25-36). -/
def defaultState : ArmState :=
  { jointTargets := [0, 0, 0, 0, 0, 0]
    magnetOn := false
    attachedObject := none
    objects := [cube1, cube2, cylinder1]
    pendingCommand := none
    commandResult := none }

/-- `jointLimits` (src/server.js lines 61-68): fixed per-joint degree
ranges, `[min, max]` pairs. -/
def jointLimits : List (ℚ × ℚ) :=
  [(-180, 180), (-90, 90), (-135, 135), (-180, 180), (-90, 90), (-180, 180)]

/-! ### POST /api/attachment-status (src/server.js lines 489-500) -/

/-- Handler for `/api/attachment-status`: a true report stores `objectId` as
the attached object; a false report clears it only when it names the object
currently recorded as attached. -/
def stepAttachment (s : ArmState) (objectId : String) (attached : Bool) : ArmState :=
  if attached then { s with attachedObject := some objectId }
  else if s.attachedObject = some objectId then { s with attachedObject := none }
  else s

/-! ### POST /api/command-result (src/server.js lines 445-466) -/

/-- Handler for `/api/command-result`: records the report for the polling
queue and syncs the state fields the browser chose to include, without any
validation of the reported joint targets. -/
def stepCommandResult (s : ArmState) (r : ResultReport) : ArmState :=
  { s with
    commandResult := some r
    jointTargets := r.jointTargets.getD s.jointTargets
    magnetOn := r.magnetOn.getD s.magnetOn
    attachedObject := r.attachedObject.getD s.attachedObject }

/-! ### POST /api/objects (src/server.js lines 469-481) -/

/-- `armState.objects.find(o => o.id === update.id)` followed by
`existing.position = update.position`: the first object with the given id,
if any, receives the new position. -/
def updateFirst (objs : List TrackedObject) (uid : String) (pos : Vec3) :
    List TrackedObject :=
  match objs with
  | [] => []
  | o :: rest =>
      if o.id = uid then { o with position := pos } :: rest
      else o :: updateFirst rest uid pos

/-- Handler for `/api/objects`: applies each position update in order. -/
def stepObjects (s : ArmState) (updates : List (String × Vec3)) : ArmState :=
  { s with objects := updates.foldl (fun objs u => updateFirst objs u.1 u.2) s.objects }

/-! ### executeViaCommandQueue (src/server.js lines 225-256) -/

/-- The write that opens every async tool call: a fresh pending command is
stored and any stale result is cleared (lines 229-236). -/
def issueCommand (s : ArmState) (cmd : Command) : ArmState :=
  { s with pendingCommand := some cmd, commandResult := none }

/-- Outcome of one `executeViaCommandQueue` call: either the browser's result
object, or the timeout object `{ success: false, error: 'Command timeout - is
a browser tab open?' }`.  Both are returned values; neither path throws. -/
inductive QueueOutcome where
  | ok (r : ResultReport)
  | timedOut
  deriving DecidableEq

/-- The `success` field of the value `executeViaCommandQueue` returns. -/
def queueSuccess : QueueOutcome → Bool
  | .ok r => r.success
  | .timedOut => false

/-- One `executeViaCommandQueue` call: issue the command, let at most one
`/api/command-result` report arrive while polling (`arrival`), then either
consume a matching result (clearing both slots) or time out (clearing only
the pending-command slot; a non-matching result is left in place exactly as
the source does). -/
def runQueue (s : ArmState) (cmd : Command) (arrival : Option ResultReport) :
    QueueOutcome × ArmState :=
  let s1 := issueCommand s cmd
  let s2 := match arrival with
    | some r => stepCommandResult s1 r
    | none => s1
  match s2.commandResult with
  | some r =>
      if r.commandId = cmd.id then
        (.ok r, { s2 with pendingCommand := none, commandResult := none })
      else
        (.timedOut, { s2 with pendingCommand := none })
  | none => (.timedOut, { s2 with pendingCommand := none })

/-! ### Sync tools and routing (src/server.js lines 167-223, 345-399) -/

/-- Result of `discover_objects` for one object, with the fallback defaults
`obj.type || 'cube'`, `obj.size || 0.05`, `obj.color || 'silver'` and the
derived `attached: armState.attachedObject === obj.id`. -/
structure Discovered where
  id : String
  type : String
  position : Vec3
  size : ℚ
  color : String
  attached : Bool
  deriving DecidableEq

/-- The `discover_objects` branch of `executeSyncTool`. -/
def discoverObjects (s : ArmState) : List Discovered :=
  s.objects.map fun o =>
    { id := o.id
      type := o.type.getD "cube"
      position := o.position
      size := o.size.getD 0.05
      color := o.color.getD "silver"
      attached := decide (s.attachedObject = some o.id) }

/-- Payload of a sync-tool response.  The constant documentation blocks of
`get_environment_info` are elided; its state-derived `current_state` part is
kept. -/
inductive SyncResult where
  | objects (l : List Discovered)
  | envInfo (holding : Option String) (magnet : Bool)

/-- `executeSyncTool`: only the two discovery tools are handled on the
server; every other name falls through to `null`, which makes
`handleMcpMessage` delegate it to the browser queue. -/
def executeSyncTool (name : String) (s : ArmState) : Option SyncResult :=
  if name = "discover_objects" then some (.objects (discoverObjects s))
  else if name = "get_environment_info" then some (.envInfo s.attachedObject s.magnetOn)
  else none

/-- `ASYNC_TOOLS` (src/server.js lines 221-223). -/
def ASYNC_TOOLS : List String :=
  ["pick_object", "carry_to", "place_object", "dance", "reset_to_base", "take_screenshot"]

/-! ### executeTool of the v2.0 server section (src/server.js lines 673-752)

These are the direct server-side joint-target writers; the `set_pose`
branch (lines 728-744) validates the length and clamps each angle. -/

/-- `Math.max(limits[0], Math.min(limits[1], angle))` for joint `i`
(out-of-range indices use the JS `undefined` path only through the guarded
callers, so the default pair is never reached by them). -/
def clampJoint (i : ℕ) (angle : ℚ) : ℚ :=
  let lim := jointLimits.getD i (-180, 180)
  max lim.1 (min lim.2 angle)

/-- JS `arr[i] = v` for the sequential index patterns used by `set_pose`:
overwrite when the slot exists, append when writing one past the end. -/
def jsSet (l : List ℚ) (i : ℕ) (v : ℚ) : List ℚ :=
  if i < l.length then l.set i v else l ++ [v]

/-- The `angles.forEach((angle, i) => { jointTargets[i] = clamp(...) })`
loop of the `set_pose` branch, writing indices `i, i+1, ...`. -/
def writePose (jt : List ℚ) (angles : List ℚ) (i : ℕ) : List ℚ :=
  match angles with
  | [] => jt
  | a :: rest => writePose (jsSet jt i (clampJoint i a)) rest (i + 1)

/-- Result value of a v2 `executeTool` call (success flag plus message or
error string, as in the returned JSON). -/
inductive ToolRes where
  | ok (message : String)
  | failed (error : String)
  deriving DecidableEq

/-- The `set_pose` branch of v2 `executeTool`: reject anything that is not a
6-element array, otherwise clamp every angle into its joint's limits and
store the result. -/
def setPose (s : ArmState) (angles : List ℚ) : ToolRes × ArmState :=
  if angles.length = 6 then
    (.ok "Moving to pose", { s with jointTargets := writePose s.jointTargets angles 0 })
  else
    (.failed "Must provide array of 6 angles", s)

/-- The `move_joint` branch of v2 `executeTool`: clamp one angle into the
addressed joint's limits. -/
def moveJoint (s : ArmState) (joint : ℕ) (angle : ℚ) : ToolRes × ArmState :=
  if joint ≤ 5 then
    (.ok "Joint moving", { s with jointTargets := jsSet s.jointTargets joint (clampJoint joint angle) })
  else
    (.failed "Joint must be 0-5", s)

/-- The `reset_arm` branch of v2 `executeTool`. -/
def resetArm (s : ArmState) : ArmState :=
  { s with jointTargets := [0, 0, 0, 0, 0, 0], magnetOn := false }

/-! ### executePickObject (src/unnamed/part_000, lines 167-191)

The lookup/guard/waypoint phase of the pick task runs synchronously before
any command is issued; the error returns happen before any state write. -/

/-- Decision of the pick task before the motion sequence starts: the object
lookup, the already-holding guard (`armState.magnetOn &&
armState.attachedObject`), and the three computed waypoints. -/
inductive PickRes where
  | err (code : String)
  | started (above pick lift : Vec3)
  deriving DecidableEq

/-- The synchronous prefix of `executePickObject`: returns the error result
(with the state untouched) or the waypoints the motion sequence will visit. -/
def pickStep (s : ArmState) (objectId : String) : PickRes × ArmState :=
  match s.objects.find? (fun o => o.id = objectId) with
  | none => (.err "OBJECT_NOT_FOUND", s)
  | some obj =>
      if s.magnetOn && s.attachedObject.isSome then
        (.err "ALREADY_HOLDING_OBJECT", s)
      else
        (.started
          { x := obj.position.x, y := 0.25, z := obj.position.z }
          { x := obj.position.x, y := obj.position.y + 0.08, z := obj.position.z }
          { x := obj.position.x, y := 0.30, z := obj.position.z }, s)

/-! ### The carry task (browser side) -/

/-- Outcome of the browser-side carry executor: an error result, or a single
`set_pose` motion command carrying the solved joint vector. -/
inductive CarryOutcome where
  | error (code : String)
  | move (angles : List ℝ)

/-- Number of motion commands the carry outcome issues. -/
def motionCommands : CarryOutcome → ℕ
  | .error _ => 0
  | .move _ => 1

/-- Modelled from the spec: the browser-side `carry_to` task executor is not
in src (the v3 server delegates all tasks to public/index.html).  Per the
spec it requires a held object (else `NO_OBJECT_HELD`), solves IK for the
point (else `OUT_OF_REACH` on solver failure), and issues one motion. -/
noncomputable def executeCarryTo (holding : Bool) (p : Point3) : CarryOutcome :=
  if !holding then .error "NO_OBJECT_HELD"
  else
    match solveIK p with
    | none => .error "OUT_OF_REACH"
    | some angles => .move angles

/-! ### Reachable server states (v3.0) -/

/-- One externally triggered mutation of the v3 server state: an inbound
attachment report, an inbound command result, an object-position sync, or
the issue/poll phases of `executeViaCommandQueue`. -/
inductive Step : ArmState → ArmState → Prop where
  | attach (s : ArmState) (objectId : String) (attached : Bool) :
      Step s (stepAttachment s objectId attached)
  | report (s : ArmState) (r : ResultReport) :
      Step s (stepCommandResult s r)
  | objectSync (s : ArmState) (updates : List (String × Vec3)) :
      Step s (stepObjects s updates)
  | issue (s : ArmState) (cmd : Command) :
      Step s (issueCommand s cmd)
  | queue (s : ArmState) (cmd : Command) (arrival : Option ResultReport) :
      Step s (runQueue s cmd arrival).2

/-- States the v3 server can be in, starting from `defaultState`. -/
inductive Reachable : ArmState → Prop where
  | init : Reachable defaultState
  | step {s t : ArmState} : Reachable s → Step s t → Reachable t

/-- The JointVector invariant of the spec: exactly 6 entries, each within
its joint's `[min, max]` range. -/
def validJT (l : List ℚ) : Prop :=
  l.length = 6 ∧ ∀ p ∈ l.zip jointLimits, p.2.1 ≤ p.1 ∧ p.1 ≤ p.2.2

instance (l : List ℚ) : Decidable (validJT l) := by
  unfold validJT; infer_instance

/-! ### Concrete states and inputs used in the theorems below -/

/-- The reachable state obtained from `defaultState` by one
`/api/attachment-status` report `{objectId: "cube1", attached: true}`. -/
def heldNoMagnet : ArmState := stepAttachment defaultState "cube1" true

/-- A state holding `cube1` with the magnet engaged. -/
def heldWithMagnet : ArmState :=
  { defaultState with magnetOn := true, attachedObject := some "cube1" }

/-- The arguments of the MCP call `carry_to(5, 0, 0)`. -/
def carryArgs : List (String × ℚ) := [("x", 5), ("y", 0), ("z", 0)]

/-- The queue command `executeViaCommandQueue` stores for `carry_to(5,0,0)`. -/
def carryCmd (cid : ℕ) : Command := { id := cid, tool := "carry_to", args := carryArgs }

/-- A browser report whose `jointTargets` payload is a 1-element array. -/
def badReport : ResultReport :=
  { commandId := 7, success := true, jointTargets := some [1000],
    magnetOn := none, attachedObject := none }

/-- The solver invoked as one step of the server process: its body reads and
writes no server state, so the call pairs the value computed from the target
alone with the untouched state. -/
noncomputable def solveCall (s : ArmState) (p : Point3) : Option (List ℝ) × ArmState :=
  (solveIK p, s)

/-! ## Helper lemmas -/

theorem exists_six {α : Type} (l : List α) (h : l.length = 6) :
    ∃ a b c d e f, l = [a, b, c, d, e, f] := by
  rcases l with _ | ⟨a, _ | ⟨b, _ | ⟨c, _ | ⟨d, _ | ⟨e, _ | ⟨f, rest⟩⟩⟩⟩⟩⟩ <;> simp_all

/-- Clamping lands inside the addressed joint's limit pair. -/
theorem clampJoint_bounds (i : ℕ) (a : ℚ) :
    (jointLimits.getD i (-180, 180)).1 ≤ clampJoint i a ∧
      clampJoint i a ≤ (jointLimits.getD i (-180, 180)).2 := by
  have hle : (jointLimits.getD i (-180, 180)).1 ≤ (jointLimits.getD i (-180, 180)).2 := by
    match i with
    | 0 => decide
    | 1 => decide
    | 2 => decide
    | 3 => decide
    | 4 => decide
    | 5 => decide
    | n + 6 =>
        rw [List.getD_eq_default]
        · decide
        · simp [jointLimits]
  exact ⟨le_max_left _ _, max_le hle (min_le_left _ _)⟩

/-- A `set_pose` call on a well-formed state yields clamped joint targets. -/
theorem setPose_valid (s : ArmState) (angles : List ℚ)
    (h6 : angles.length = 6) (hjt : s.jointTargets.length = 6) :
    validJT (setPose s angles).2.jointTargets := by
  obtain ⟨a0, a1, a2, a3, a4, a5, ha⟩ := exists_six angles h6
  obtain ⟨t0, t1, t2, t3, t4, t5, ht⟩ := exists_six s.jointTargets hjt
  subst ha
  unfold setPose
  rw [if_pos (by simp)]
  dsimp only
  rw [ht]
  show validJT (writePose [t0, t1, t2, t3, t4, t5] [a0, a1, a2, a3, a4, a5] 0)
  simp only [writePose, jsSet, List.length, List.set]
  norm_num
  refine ⟨rfl, ?_⟩
  intro p hp
  simp only [jointLimits, List.zip, List.zipWith, List.mem_cons, List.not_mem_nil, or_false] at hp
  rcases hp with h | h | h | h | h | h <;> subst h
  · exact clampJoint_bounds 0 a0
  · exact clampJoint_bounds 1 a1
  · exact clampJoint_bounds 2 a2
  · exact clampJoint_bounds 3 a3
  · exact clampJoint_bounds 4 a4
  · exact clampJoint_bounds 5 a5

/-- Position updates keep the id sequence of the registry. -/
theorem updateFirst_map_id (objs : List TrackedObject) (uid : String) (pos : Vec3) :
    (updateFirst objs uid pos).map (fun o => o.id) = objs.map (fun o => o.id) := by
  induction objs with
  | nil => rfl
  | cons o rest ih =>
      unfold updateFirst
      by_cases h : o.id = uid
      · simp [h]
      · simp [h, ih]

theorem foldl_updateFirst_map_id (ups : List (String × Vec3)) (objs : List TrackedObject) :
    (ups.foldl (fun objs u => updateFirst objs u.1 u.2) objs).map (fun o => o.id) =
      objs.map (fun o => o.id) := by
  induction ups generalizing objs with
  | nil => rfl
  | cons u rest ih => rw [List.foldl_cons, ih, updateFirst_map_id]

/-- No v3 server transition changes the id sequence of the object registry. -/
theorem step_map_id {s t : ArmState} (h : Step s t) :
    t.objects.map (fun o => o.id) = s.objects.map (fun o => o.id) := by
  cases h with
  | attach oid att =>
      unfold stepAttachment
      split
      · rfl
      · split <;> rfl
  | report r => rfl
  | objectSync ups => exact foldl_updateFirst_map_id ups s.objects
  | issue cmd => rfl
  | queue cmd arr =>
      cases arr with
      | none => rfl
      | some r =>
          unfold runQueue issueCommand stepCommandResult
          dsimp only
          split <;> rfl

/-- Object ids stay pairwise distinct in every reachable server state. -/
theorem reachable_ids_nodup {s : ArmState} (h : Reachable s) :
    (s.objects.map (fun o => o.id)).Nodup := by
  induction h with
  | init => decide
  | step _ hstep ih => rw [step_map_id hstep]; exact ih

/-- Over a registry with distinct ids, at most one mapped entry can satisfy
an attached-flag derived by comparison with a single id. -/
theorem countP_map_id_le_one (objs : List TrackedObject)
    (hn : (objs.map (fun o => o.id)).Nodup)
    (ao : Option String) (f : TrackedObject → Discovered)
    (hf : ∀ o, (f o).attached = decide (ao = some o.id)) :
    (objs.map f).countP (fun od => od.attached) ≤ 1 := by
  induction objs with
  | nil => simp
  | cons o rest ih =>
      rw [List.map_cons, List.nodup_cons] at hn
      rw [List.map_cons, List.countP_cons]
      by_cases h : ao = some o.id
      · have hzero : (rest.map f).countP (fun od => od.attached) = 0 := by
          rw [List.countP_eq_zero]
          intro od hod
          rw [List.mem_map] at hod
          obtain ⟨x, hx, rfl⟩ := hod
          rw [hf x]
          simp only [decide_eq_true_eq]
          intro hax
          apply hn.1
          rw [Option.some.inj (h.symm.trans hax)]
          exact List.mem_map_of_mem (fun o => o.id) hx
        rw [hzero, hf o]
        simp [h]
      · rw [hf o]
        have hfalse : (decide (ao = some o.id)) = false := by simpa using h
        rw [hfalse]
        simpa using ih hn.2

theorem discover_countP (s : ArmState)
    (hn : (s.objects.map (fun o => o.id)).Nodup) :
    (discoverObjects s).countP (fun od => od.attached) ≤ 1 := by
  unfold discoverObjects
  exact countP_map_id_le_one s.objects hn s.attachedObject _ (fun o => rfl)

theorem discover_iff (s : ArmState) (od : Discovered) (h : od ∈ discoverObjects s) :
    od.attached = true ↔ s.attachedObject = some od.id := by
  unfold discoverObjects at h
  rw [List.mem_map] at h
  obtain ⟨o, _, rfl⟩ := h
  simp

/-! ### Evaluations of the reach distance at the concrete targets used -/

theorem reachD_five : reachD ⟨5, 0, 0⟩ > L1 + L2 := by
  rw [reachD_eq]
  show Real.sqrt ((5:ℝ)^2 + 0^2 + (0 - baseHeight - L3)^2) > L1 + L2
  simp only [baseHeight, L3, L1, L2]
  rw [gt_iff_lt, show (0.35:ℝ) + 0.30 = 0.65 by norm_num, Real.lt_sqrt (by norm_num)]
  norm_num

theorem reachD_origin_column : reachD ⟨0, 0.5, 0⟩ = 0 := by
  rw [reachD_eq]
  show Real.sqrt ((0:ℝ)^2 + 0^2 + (0.5 - baseHeight - L3)^2) = 0
  rw [show (0:ℝ)^2 + 0^2 + (0.5 - baseHeight - L3)^2 = 0 by
        simp only [baseHeight, L3]; norm_num]
  exact Real.sqrt_zero

theorem reachD_near : reachD ⟨0.1, 0.5, 0⟩ = 0.1 := by
  rw [reachD_eq]
  show Real.sqrt ((0.1:ℝ)^2 + 0^2 + (0.5 - baseHeight - L3)^2) = 0.1
  rw [show (0.1:ℝ)^2 + 0^2 + (0.5 - baseHeight - L3)^2 = (0.1:ℝ)^2 by
        simp only [baseHeight, L3]; norm_num,
      Real.sqrt_sq (by norm_num)]

theorem reachD_low : reachD ⟨0, 0.4, 0⟩ = 0.1 := by
  rw [reachD_eq]
  show Real.sqrt ((0:ℝ)^2 + 0^2 + (0.4 - baseHeight - L3)^2) = 0.1
  rw [show (0:ℝ)^2 + 0^2 + (0.4 - baseHeight - L3)^2 = (0.1:ℝ)^2 by
        simp only [baseHeight, L3]; norm_num,
      Real.sqrt_sq (by norm_num)]

theorem solveIK_five : solveIK ⟨5, 0, 0⟩ = none := by
  unfold solveIK
  rw [if_pos reachD_five]

theorem arccos_lt_quarter_pi : Real.arccos (27/28) < Real.pi / 4 := by
  have h1 : Real.arccos (Real.sqrt 2 / 2) = Real.pi / 4 := by
    rw [← Real.cos_pi_div_four]
    exact Real.arccos_cos (by positivity) (by linarith [Real.pi_pos])
  have h2 : Real.sqrt 2 / 2 < 27/28 := by
    have : Real.sqrt 2 < 27/14 := (Real.sqrt_lt' (by norm_num)).2 (by norm_num)
    linarith
  have hmem1 : Real.sqrt 2 / 2 ∈ Set.Icc (-1:ℝ) 1 := by
    constructor
    · have := Real.sqrt_nonneg 2; linarith
    · have : Real.sqrt 2 ≤ 2 := (Real.sqrt_le_left (by norm_num)).2 (by norm_num)
      linarith
  have hmem2 : (27/28 : ℝ) ∈ Set.Icc (-1:ℝ) 1 := by constructor <;> norm_num
  have h3 := Real.strictAntiOn_arccos hmem1 hmem2 h2
  linarith [h1, h3]

/-! ## Claim theorems -/

/-- C1 (counterexample):  For the call `carry_to(5,0,0)` the claim says the
pending-command slot is never written.  In the v3 server, `carry_to` is not a
sync tool and belongs to `ASYNC_TOOLS`, so `handleMcpMessage` routes it to
`executeViaCommandQueue`, whose first action writes the pending-command slot
with the `carry_to` command — before any reachability information exists. -/
theorem carry_far_pending_written :
    executeSyncTool "carry_to" defaultState = none
    ∧ "carry_to" ∈ ASYNC_TOOLS
    ∧ (issueCommand defaultState (carryCmd 0)).pendingCommand = some (carryCmd 0) := by
  refine ⟨?_, by decide, rfl⟩
  rfl

/-- C1 (amended):  `carry_to(5,0,0)` is delegated to the browser: the server
writes the pending-command slot once with the `carry_to` command and clears
it by the end of the call; the reachability check happens in the browser-side
executor (modelled from the spec), which fails IK for `(5,0,0)` — the
projected distance exceeds `L1+L2` — returns `OUT_OF_REACH`, and issues zero
motion commands. -/
theorem carry_far_out_of_reach (s : ArmState) (cid : ℕ) :
    (issueCommand s (carryCmd cid)).pendingCommand = some (carryCmd cid)
    ∧ (runQueue s (carryCmd cid) none).2.pendingCommand = none
    ∧ executeCarryTo true ⟨5, 0, 0⟩ = .error "OUT_OF_REACH"
    ∧ motionCommands (executeCarryTo true ⟨5, 0, 0⟩) = 0 := by
  have hc : executeCarryTo true ⟨5, 0, 0⟩ = .error "OUT_OF_REACH" := by
    unfold executeCarryTo
    rw [solveIK_five]
    rfl
  exact ⟨rfl, rfl, hc, by rw [hc]; rfl⟩

/-- C2 (code bug):  The claim (and the plan's own error-detection note "IK
solver returns null if unreachable") requires `solve` to fail when the
projected distance is below `|L1-L2|`; but `solveIK` only tests `d > L1+L2`,
so it fails exactly on the too-far condition, and at the too-close target
`(0, 0.5, 0)` (distance 0 from the shoulder plane) it still returns a joint
vector (in JS one containing `NaN` from `acos` of an argument below -1). -/
theorem solveIK_too_close_still_returns :
    (∀ p : Point3, solveIK p = none ↔ reachD p > L1 + L2)
    ∧ reachD ⟨0, 0.5, 0⟩ < |L1 - L2|
    ∧ (solveIK ⟨0, 0.5, 0⟩).isSome = true := by
  refine ⟨?_, ?_, ?_⟩
  · intro p
    by_cases h : reachD p > L1 + L2
    · simp [solveIK, h]
    · simp [solveIK, h]
  · rw [reachD_origin_column]
    simp only [L1, L2]
    norm_num
  · unfold solveIK
    rw [if_neg (by rw [reachD_origin_column]; simp only [L1, L2]; norm_num)]
    rfl

/-- C3 (amended):  The solver performs no joint-limit clamping; what holds is
that limit violations never cause failure: `solveIK` returns a joint vector
for every target whose projected distance is at most `L1+L2` — its only
failure condition is reachability. -/
theorem solveIK_reachability_only (p : Point3) (h : reachD p ≤ L1 + L2) :
    (solveIK p).isSome = true := by
  unfold solveIK
  rw [if_neg (not_lt.mpr h)]
  rfl

theorem solveIK_reachability_only_witness :
    reachD ⟨0, 0.4, 0⟩ ≤ L1 + L2 ∧ (solveIK ⟨0, 0.4, 0⟩).isSome = true := by
  have h : reachD ⟨0, 0.4, 0⟩ ≤ L1 + L2 := by
    rw [reachD_low]; simp only [L1, L2]; norm_num
  exact ⟨h, solveIK_reachability_only ⟨0, 0.4, 0⟩ h⟩

/-- C3 (counterexample):  At the reachable target `(0.1, 0.5, 0)` (projected
distance 0.1, inside `[|L1-L2|, L1+L2]`), the solver's elbow entry is
`-arccos(-27/28)` converted to degrees, which is below `-135`, the elbow
joint's configured minimum — the returned vector is not clamped to the
joint limits. -/
theorem solveIK_exceeds_elbow_limit :
    |L1 - L2| ≤ reachD ⟨0.1, 0.5, 0⟩
    ∧ reachD ⟨0.1, 0.5, 0⟩ ≤ L1 + L2
    ∧ ((solveIK ⟨0.1, 0.5, 0⟩).getD []).getD 2 0 < -135
    ∧ (jointLimits.getD 2 (0, 0)).1 = -135 := by
  refine ⟨?_, ?_, ?_, by decide⟩
  · rw [reachD_near]
    simp only [L1, L2]
    rw [abs_of_nonneg (by norm_num : (0:ℝ) ≤ 0.35 - 0.30)]
    norm_num
  · rw [reachD_near]; simp only [L1, L2]; norm_num
  · unfold solveIK
    rw [if_neg (by rw [reachD_near]; simp only [L1, L2]; norm_num)]
    simp only [Option.getD_some, List.map, List.getD_cons_succ, List.getD_cons_zero]
    rw [reachD_near]
    simp only [L1, L2]
    rw [show ((0.1:ℝ)^2 - 0.35^2 - 0.30^2)/(2*0.35*0.30) = -(27/28) by norm_num,
        Real.arccos_neg]
    rw [div_lt_iff₀ Real.pi_pos]
    nlinarith [Real.pi_pos, arccos_lt_quarter_pi]

/-- C4 (amended):  `pick_object` on an unknown id returns `OBJECT_NOT_FOUND`
with the state untouched; the already-holding rejection fires only when the
magnet is on as well — the guard in `executePickObject` is
`armState.magnetOn && armState.attachedObject` — and then also leaves the
state untouched. -/
theorem pick_guard_errors (s : ArmState) (objectId : String) :
    (s.objects.find? (fun o => o.id = objectId) = none →
      pickStep s objectId = (.err "OBJECT_NOT_FOUND", s))
    ∧ (∀ obj, s.objects.find? (fun o => o.id = objectId) = some obj →
        s.magnetOn = true → s.attachedObject.isSome = true →
        pickStep s objectId = (.err "ALREADY_HOLDING_OBJECT", s)) := by
  constructor
  · intro h
    unfold pickStep
    rw [h]
  · intro obj h hm ha
    unfold pickStep
    rw [h]
    dsimp only
    rw [if_pos (by rw [hm, ha]; rfl)]

theorem pick_guard_errors_witness :
    (defaultState.objects.find? (fun o => o.id = "ghost") = none
      ∧ pickStep defaultState "ghost" = (.err "OBJECT_NOT_FOUND", defaultState))
    ∧ (heldWithMagnet.objects.find? (fun o => o.id = "cube2") = some cube2
      ∧ heldWithMagnet.magnetOn = true
      ∧ heldWithMagnet.attachedObject.isSome = true
      ∧ pickStep heldWithMagnet "cube2" = (.err "ALREADY_HOLDING_OBJECT", heldWithMagnet)) := by
  have h1 : defaultState.objects.find? (fun o => o.id = "ghost") = none := rfl
  have h2 : heldWithMagnet.objects.find? (fun o => o.id = "cube2") = some cube2 := rfl
  exact ⟨⟨h1, (pick_guard_errors defaultState "ghost").1 h1⟩,
    ⟨h2, rfl, rfl, (pick_guard_errors heldWithMagnet "cube2").2 cube2 h2 rfl rfl⟩⟩

/-- C4 (counterexample):  In the reachable state where `cube1` is recorded as
held but the magnet is off (one attachment report from the default state),
`pick_object("cube2")` does not return `ALREADY_HOLDING_OBJECT`: the guard
also requires `magnetOn`, so the pick proceeds to the motion sequence. -/
theorem pick_held_without_magnet_proceeds :
    Reachable heldNoMagnet
    ∧ heldNoMagnet.attachedObject = some "cube1"
    ∧ heldNoMagnet.magnetOn = false
    ∧ (pickStep heldNoMagnet "cube2").1 ≠ PickRes.err "ALREADY_HOLDING_OBJECT" :=
  ⟨Reachable.step Reachable.init (Step.attach defaultState "cube1" true),
    by decide, by decide, by decide⟩

/-- C5 (amended):  The report handlers do not couple the held object to the
magnet: an `/api/attachment-status` report never changes `magnetOn`, and a
true report stores its object id unconditionally — so `heldObjectId` non-null
does not imply `actuatorEngaged` in all reachable states; the implication is
broken by a single attachment report. -/
theorem attachment_report_keeps_magnet (s : ArmState) (objectId : String) (attached : Bool) :
    (stepAttachment s objectId attached).magnetOn = s.magnetOn
    ∧ (stepAttachment s objectId true).attachedObject = some objectId := by
  constructor
  · unfold stepAttachment
    split
    · rfl
    · split <;> rfl
  · rfl

/-- C5 (counterexample):  One attachment report from the default state yields
a reachable state with `attachedObject` set and `magnetOn` still false,
violating the claimed invariant. -/
theorem held_without_engaged_reachable :
    Reachable (stepAttachment defaultState "cube1" true)
    ∧ (stepAttachment defaultState "cube1" true).attachedObject.isSome = true
    ∧ (stepAttachment defaultState "cube1" true).magnetOn = false :=
  ⟨Reachable.step Reachable.init (Step.attach defaultState "cube1" true),
    by decide, by decide⟩

/-- C6 (amended):  The direct tool writer preserves the joint-vector
invariant — `set_pose` on a well-formed state clamps all six angles into
their limits — while the `/api/command-result` handler preserves it only
conditionally: it copies the reported vector without validation, so the
invariant survives exactly when the report's vector already satisfies it. -/
theorem jointTargets_writers (s : ArmState) (angles : List ℚ) (r : ResultReport) :
    (angles.length = 6 → s.jointTargets.length = 6 →
      validJT (setPose s angles).2.jointTargets)
    ∧ (validJT s.jointTargets → (∀ v, r.jointTargets = some v → validJT v) →
        validJT (stepCommandResult s r).jointTargets) := by
  constructor
  · exact setPose_valid s angles
  · intro hs hv
    unfold stepCommandResult
    cases hjt : r.jointTargets with
    | none => simpa using hs
    | some v => simpa using hv v hjt

theorem jointTargets_writers_witness :
    (([200, -100, 200, 0, 0, 77] : List ℚ).length = 6
      ∧ defaultState.jointTargets.length = 6
      ∧ validJT (setPose defaultState [200, -100, 200, 0, 0, 77]).2.jointTargets)
    ∧ (validJT defaultState.jointTargets
      ∧ validJT (stepCommandResult defaultState
          { commandId := 1, success := true, jointTargets := some [10, 10, 10, 10, 10, 10],
            magnetOn := none, attachedObject := none }).jointTargets) := by
  refine ⟨⟨by decide, by decide,
    (jointTargets_writers defaultState [200, -100, 200, 0, 0, 77] badReport).1
      (by decide) (by decide)⟩, ⟨by decide, ?_⟩⟩
  exact (jointTargets_writers defaultState [0, 0, 0, 0, 0, 0]
      { commandId := 1, success := true, jointTargets := some [10, 10, 10, 10, 10, 10],
        magnetOn := none, attachedObject := none }).2 (by decide)
    (fun v hv => by cases hv; decide)

/-- C6 (counterexample):  A single `/api/command-result` report carrying a
1-element `jointTargets` array reaches a state whose joint vector has the
wrong length (and an out-of-range entry) — the handler stores it without
validation, so the claimed invariant fails in a reachable state. -/
theorem command_result_breaks_joint_invariant :
    Reachable (stepCommandResult defaultState badReport)
    ∧ ¬ validJT (stepCommandResult defaultState badReport).jointTargets :=
  ⟨Reachable.step Reachable.init (Step.report defaultState badReport), by decide⟩

/-- C7:  A command-queue timeout is returned as a failure value (never
thrown): the outcome is the timeout result with `success = false`, the
pending-command slot is cleared back to `null`, and a subsequent queue call
from the resulting state runs normally — issuing and completing a new
command with a matching result report succeeds and again leaves no pending
command. -/
theorem queue_timeout_graceful (s : ArmState) (cmd cmd2 : Command) (r : ResultReport) :
    queueSuccess (runQueue s cmd none).1 = false
    ∧ (runQueue s cmd none).1 = .timedOut
    ∧ (runQueue s cmd none).2.pendingCommand = none
    ∧ (runQueue (runQueue s cmd none).2 cmd2 (some { r with commandId := cmd2.id })).1
        = .ok { r with commandId := cmd2.id }
    ∧ (runQueue (runQueue s cmd none).2 cmd2
        (some { r with commandId := cmd2.id })).2.pendingCommand = none := by
  refine ⟨rfl, rfl, rfl, ?_, ?_⟩ <;>
    · unfold runQueue issueCommand stepCommandResult
      dsimp only
      rw [if_pos rfl]

/-- C8:  The IK solver is pure and deterministic: invoked in any two server
states it computes the same value — a function of the target alone — and
leaves the state it runs in unchanged. -/
theorem solveIK_pure_deterministic (s1 s2 : ArmState) (p : Point3) :
    (solveCall s1 p).2 = s1
    ∧ (solveCall s1 p).1 = (solveCall s2 p).1
    ∧ (solveCall s1 p).1 = solveIK p :=
  ⟨rfl, rfl, rfl⟩

/-- C9:  In every reachable state, `discover_objects` reports an object as
attached exactly when its id equals `armState.attachedObject`, and — since
object ids stay pairwise distinct under every server transition — at most
one entry of the returned list is attached. -/
theorem discover_attached_unique (s : ArmState) (hs : Reachable s) :
    (∀ od ∈ discoverObjects s, od.attached = true ↔ s.attachedObject = some od.id)
    ∧ (discoverObjects s).countP (fun od => od.attached) ≤ 1 :=
  ⟨fun od hod => discover_iff s od hod, discover_countP s (reachable_ids_nodup hs)⟩

theorem discover_attached_unique_witness :
    (∀ od ∈ discoverObjects defaultState,
      od.attached = true ↔ defaultState.attachedObject = some od.id)
    ∧ (discoverObjects defaultState).countP (fun od => od.attached) ≤ 1 :=
  discover_attached_unique defaultState Reachable.init

/-- C10:  An attachment report with `attached = false` naming an object other
than the currently held one leaves `attachedObject` unchanged, and an
attachment report of either polarity never modifies `jointTargets`,
`magnetOn`, or the object registry. -/
theorem attachment_report_frame (s : ArmState) (objectId : String) (attached : Bool) :
    ((stepAttachment s objectId attached).jointTargets = s.jointTargets
      ∧ (stepAttachment s objectId attached).magnetOn = s.magnetOn
      ∧ (stepAttachment s objectId attached).objects = s.objects)
    ∧ (attached = false → s.attachedObject ≠ some objectId →
        (stepAttachment s objectId attached).attachedObject = s.attachedObject) := by
  constructor
  · unfold stepAttachment
    split
    · exact ⟨rfl, rfl, rfl⟩
    · split
      · exact ⟨rfl, rfl, rfl⟩
      · exact ⟨rfl, rfl, rfl⟩
  · intro hf hne
    subst hf
    unfold stepAttachment
    rw [if_neg (by simp), if_neg hne]

theorem attachment_report_frame_witness :
    ((stepAttachment defaultState "cube1" false).jointTargets = defaultState.jointTargets
      ∧ (stepAttachment defaultState "cube1" false).magnetOn = defaultState.magnetOn
      ∧ (stepAttachment defaultState "cube1" false).objects = defaultState.objects)
    ∧ defaultState.attachedObject ≠ some "cube1"
    ∧ (stepAttachment defaultState "cube1" false).attachedObject
        = defaultState.attachedObject :=
  ⟨(attachment_report_frame defaultState "cube1" false).1, by decide,
    (attachment_report_frame defaultState "cube1" false).2 rfl (by decide)⟩

end RoboDemo
